import Mathlib

/-!
Shallow embedding of the prodscope backend orchestration layer:

* `src/backend/src/services/llm_service.py` — `LLMService` (provider registry,
  `chat`, `_generate_mock_response`, `analyze_with_best_llm`);
* `src/backend/src/llm/llm_manager.py` — `LLMManager` (`_create_llm`, `get_llm`,
  `get_llm_for_task`, `estimate_cost`);
* `src/backend/src/api/main.py` — the analysis-session endpoints
  (`start_analysis`, `get_analysis_status`, `get_analysis_results`) and the
  background step-runner `run_six_layer_analysis`.

Modelling conventions: a Python `dict` used as an ordered string-keyed map is a
`List (String × α)` with first-match lookup; an environment lookup
(`os.getenv`) is a function `String → Option String` (`none` = unset variable);
an external LLM client's `ainvoke` is an oracle returning `Option` — `none`
models the call raising an exception, which the source catches; monetary and
confidence arithmetic is over `ℚ` (exact model of the source's formulas);
timestamps (`int(time.time())`, `datetime.now()`) are supplied as explicit
numeric parameters.
-/

namespace Prodscope

/-- `os.environ` access: `none` models an unset variable. -/
abbrev Env := String → Option String

/-- One entry of a LangChain messages list (`SystemMessage` / `HumanMessage`),
as built in `LLMService.chat`. -/
inductive ChatMessageItem where
  | system (content : String)
  | human (content : String)
deriving DecidableEq, Repr

/-- The fields of a LangChain `ainvoke` response that `LLMService.chat` reads:
`response.content`, `response.response_metadata.get("token_usage", {})`, and
`response.response_metadata.get("model_name", "unknown")`. -/
structure InvokeResponse where
  content : String
  token_usage : Option (List (String × Nat))
  model_name : Option String
deriving DecidableEq, Repr

/-- A provider client's `ainvoke` behaviour: `none` models the call raising
(timeout, transport fault, malformed response), which `chat` catches. -/
abbrev LLM := List ChatMessageItem → Option InvokeResponse

/-- First-match lookup in an ordered string-keyed map (Python `dict` access /
`in` test). -/
def listLookup {α : Type} (m : List (String × α)) (k : String) : Option α :=
  (m.find? (fun p => p.1 == k)).map (fun p => p.2)

/-- `self.providers[name]` / `name in self.providers`. -/
def lookupProvider (providers : List (String × LLM)) (name : String) : Option LLM :=
  listLookup providers name

/-- Substring scan over character lists, the semantics of Python's
`needle in haystack`. -/
def goSub (needle : List Char) : List Char → Bool
  | [] => needle.isEmpty
  | c :: rest => needle.isPrefixOf (c :: rest) || goSub needle rest

/-- Python `needle in hay` on strings. -/
def strContains (hay needle : String) : Bool := goSub needle.data hay.data

/-- The dict returned by `LLMService.chat` / `_generate_mock_response`. -/
structure ChatResult where
  response : String
  llm_provider : String
  tokens_used : List (String × Nat)
  model : String
deriving DecidableEq, Repr

/-- The canned reply of `_generate_mock_response` for messages mentioning
Walmart or Christmas (llm_service.py lines 279-297). -/
def holiday_mock_response : String :=
  "基于您的查询，我已经分析了沃尔玛圣诞装饰品的相关数据。\n\n🎄 **市场表现洞察**：\n- 圣诞装饰品类目在11-12月销量激增，同比增长43%\n- 价格区间集中在$15-$45，性价比产品最受欢迎\n- LED灯串和人造圣诞树是核心品类\n\n📊 **用户偏好分析**：\n- 消费者更偏向多功能、易安装的装饰品\n- 环保材质成为新的购买决策因素\n- 个性化定制需求明显上升\n\n🔍 **建议优化方向**：\n1. 增加智能控制功能的装饰品\n2. 开发更多环保材质选项\n3. 提供DIY套装满足个性化需求\n\n需要我为您启动完整的六层洞察分析吗？"

/-- The canned reply for messages mentioning reviews or problems
(llm_service.py lines 299-314). -/
def review_mock_response : String :=
  "我已经分析了产品评价数据中的常见问题模式。\n\n⚠️ **主要痛点识别**：\n1. **质量问题** (32%): 材质易损坏、使用寿命短\n2. **物流问题** (24%): 包装不当、配送延迟\n3. **功能问题** (21%): 说明书不清晰、组装困难\n4. **性价比问题** (15%): 价格与质量不匹配\n\n🔧 **解决方案建议**：\n- 改进产品材质和工艺标准\n- 优化包装设计和物流流程\n- 提供更清晰的安装指南和视频教程\n- 重新调整价格策略\n\n是否需要我深入分析特定类目的问题模式？"

/-- The generic canned reply, templated over the first 50 characters of the
message (llm_service.py lines 316-333, `message[:50]`). -/
def generic_mock_response (message : String) : String :=
  "感谢您的提问！我已经收到您关于\"" ++ message.take 50 ++
  "...\"的查询。\n\n作为Prodscope产品推荐系统，我可以帮助您：\n\n🎯 **产品分析服务**：\n- 市场宏观趋势分析\n- 供应链痛点识别\n- 创新机会发现\n- 定价策略优化\n- 竞争对手分析\n\n📈 **数据驱动洞察**：\n- 基于37,891条真实产品数据\n- 结合多个LLM模型分析\n- 实时趋势数据支持\n\n需要启动完整的六层洞察分析流程吗？"

/-- `LLMService._generate_mock_response`: deterministic canned reply chosen by
substring triggers, always tagged provider `"mock"`. -/
def generate_mock_response (message : String) : ChatResult :=
  let response :=
    if strContains message "沃尔玛" || strContains message "圣诞" then
      holiday_mock_response
    else if strContains message "评价" || strContains message "问题" then
      review_mock_response
    else
      generic_mock_response message
  { response := response
    llm_provider := "mock"
    tokens_used := []
    model := "mock-model" }

/-- The `elif "primary" in self.providers / elif self.providers / else` chain of
`LLMService.chat` (lines 242-252): the `"primary"` alias, else the first
registered provider, else none (mock). -/
def selectDefault (providers : List (String × LLM)) : Option (String × LLM) :=
  match lookupProvider providers "primary" with
  | some llm => some ("primary", llm)
  | none =>
    match providers with
    | [] => none
    | (name, llm) :: _ => some (name, llm)

/-- Provider selection in `LLMService.chat` (lines 238-252): an explicitly
named provider is used only when truthy and present in the registry; otherwise
the default chain applies. -/
def selectLLM (providers : List (String × LLM)) (provider : Option String) :
    Option (String × LLM) :=
  match provider with
  | some p =>
    if p != "" then
      match lookupProvider providers p with
      | some llm => some (p, llm)
      | none => selectDefault providers
    else selectDefault providers
  | none => selectDefault providers

/-- The messages list built in `LLMService.chat` (lines 255-259). -/
def buildMessages (system_prompt : Option String) (message : String) :
    List ChatMessageItem :=
  (match system_prompt with
   | some sp => [ChatMessageItem.system sp]
   | none => []) ++ [ChatMessageItem.human message]

/-- `LLMService.chat` (lines 219-274): select a provider, invoke it once inside
the try-block, and on no provider or on a raised call return the mock
response. The function is total: no path raises to the caller. -/
def chat (providers : List (String × LLM)) (message : String)
    (system_prompt : Option String) (provider : Option String) : ChatResult :=
  match selectLLM providers provider with
  | none => generate_mock_response message
  | some (llm_name, llm) =>
    match llm (buildMessages system_prompt message) with
    | none => generate_mock_response message
    | some response =>
      { response := response.content
        llm_provider := llm_name
        tokens_used := response.token_usage.getD []
        model := response.model_name.getD "unknown" }

/-- The providers whose `ainvoke` a `chat` call executes: the source invokes
exactly the selected candidate, once, inside the single try-block
(llm_service.py lines 254-262); no other candidate is ever called. -/
def chatInvoked (providers : List (String × LLM)) (provider : Option String) :
    List String :=
  match selectLLM providers provider with
  | none => []
  | some (name, _) => [name]

/-- `task_llm_mapping` of `LLMService.analyze_with_best_llm`
(lines 365-371). -/
def task_llm_mapping : List (String × String) :=
  [("market_trends", "google"),
   ("sentiment_analysis", "anthropic"),
   ("innovation", "openai"),
   ("report_generation", "anthropic"),
   ("data_analysis", "primary")]

/-- `LLMService._get_task_specific_prompt` (lines 386-395). -/
def get_task_specific_prompt (task_type : String) : String :=
  (listLookup
    [("market_trends", "你是一个市场趋势分析专家，擅长识别市场模式和预测趋势。"),
     ("sentiment_analysis", "你是一个情感分析专家，擅长从用户评价中提取情感和观点。"),
     ("innovation", "你是一个产品创新专家，擅长发现市场机会和创新点。"),
     ("report_generation", "你是一个专业的分析报告撰写专家，擅长生成结构化的洞察报告。"),
     ("data_analysis", "你是一个数据分析专家，擅长从数据中提取有价值的洞察。")]
    task_type).getD "你是一个产品分析专家。"

/-- `LLMService.analyze_with_best_llm` (lines 346-384): map the task type to a
preferred provider name and delegate to `chat`. -/
def analyze_with_best_llm (providers : List (String × LLM))
    (task_type content : String) : ChatResult :=
  let preferred_llm := (listLookup task_llm_mapping task_type).getD "primary"
  chat providers content (some (get_task_specific_prompt task_type))
    (some preferred_llm)

/-- The providers invoked by an `analyze_with_best_llm` call (see
`chatInvoked`). -/
def analyzeInvoked (providers : List (String × LLM)) (task_type : String) :
    List String :=
  chatInvoked providers (some ((listLookup task_llm_mapping task_type).getD "primary"))

/-- The per-model entry of the `providers.<p>.models.<m>` configuration block
(llm_manager.py `LLMConfig` fields / YAML shape). Arithmetic fields over `ℚ`. -/
structure ModelConfig where
  description : String := ""
  max_tokens : Nat := 0
  temperature : ℚ := 7/10
  cost_per_1k_tokens : ℚ := 0
  use_cases : List String := []
deriving DecidableEq, Repr

/-- A `{provider, model}` reference as it appears under
`task_assignments.<task>.primary` / `.fallback`. -/
structure CandidateRef where
  provider : String
  model : String
deriving DecidableEq, Repr

/-- One `task_assignments` entry; a missing `primary`/`fallback` key is
`none`, and the empty dict is `⟨none, none⟩`. -/
structure Assignment where
  primary : Option CandidateRef := none
  fallback : Option CandidateRef := none
deriving DecidableEq, Repr

/-- The `providers.<p>` configuration block. -/
structure ProviderConfig where
  api_key_env : Option String := none
  models : List (String × ModelConfig) := []
deriving DecidableEq, Repr

/-- The global `settings` block, with the defaults the source substitutes via
`settings.get(..., default)`. -/
structure Settings where
  retry_attempts : Nat := 3
  timeout_seconds : Nat := 60
  fallback_enabled : Bool := true
deriving DecidableEq, Repr

/-- The loaded YAML configuration of `LLMManager` (well-formed shape).
`development_override` models `config.development.override_all_to`. -/
structure Config where
  providers : List (String × ProviderConfig) := []
  task_assignments : List (String × Assignment) := []
  settings : Settings := {}
  development_override : Option CandidateRef := none
deriving Repr

/-- An external client object constructed by `_create_llm` (opaque handle;
identified here by what the source passes to the constructor). -/
structure Client where
  provider : String
  model : String
deriving DecidableEq, Repr

/-- Outcome oracle for the external constructor call
(`ChatGoogleGenerativeAI(...)` etc.): arguments are provider, model, api key
and temperature; `none` models the constructor raising (caught by the
source's except-blocks, including `ImportError`). -/
abbrev ClientConstructor := String → String → String → ℚ → Option Client

/-- `LLMManager._get_model_temperature` (lines 164-169): configured value, or
0.7 on any `KeyError`. -/
def get_model_temperature (cfg : Config) (provider model : String) : ℚ :=
  match listLookup cfg.providers provider with
  | none => 7/10
  | some pc =>
    match listLookup pc.models model with
    | none => 7/10
    | some mc => mc.temperature

/-- `LLMManager._create_llm` (lines 96-162): per supported provider, read the
provider's API-key environment variable; `if not api_key` (unset or empty)
return `None`; otherwise call the external constructor (whose failure is
caught and becomes `None`). Unsupported providers return `None`. Note the
source does NOT test the `your_` placeholder pattern here. -/
def create_llm (env : Env) (construct : ClientConstructor) (cfg : Config)
    (provider model : String) : Option Client :=
  if provider == "google" then
    match env "GOOGLE_API_KEY" with
    | none => none
    | some api_key =>
      if api_key == "" then none
      else construct provider model api_key (get_model_temperature cfg provider model)
  else if provider == "openai" then
    match env "OPENAI_API_KEY" with
    | none => none
    | some api_key =>
      if api_key == "" then none
      else construct provider model api_key (get_model_temperature cfg provider model)
  else if provider == "anthropic" then
    match env "ANTHROPIC_API_KEY" with
    | none => none
    | some api_key =>
      if api_key == "" then none
      else construct provider model api_key (get_model_temperature cfg provider model)
  else if provider == "xai" then
    match env "XAI_API_KEY" with
    | none => none
    | some api_key =>
      if api_key == "" then none
      else construct provider model api_key (get_model_temperature cfg provider model)
  else none

/-- `LLMManager.get_llm` (lines 209-220): memoize a constructed client under
the key `provider:model`; a failed construction is not cached (no negative
caching), and the cache is returned alongside the result. -/
def get_llm (env : Env) (construct : ClientConstructor) (cfg : Config)
    (cache : List (String × Client)) (provider model : String) :
    Option Client × List (String × Client) :=
  let cache_key := provider ++ ":" ++ model
  match listLookup cache cache_key with
  | some c => (some c, cache)
  | none =>
    match create_llm env construct cfg provider model with
    | some llm => (some llm, cache ++ [(cache_key, llm)])
    | none => (none, cache)

/-- `LLMManager._get_default_llm` (lines 222-225). -/
def get_default_llm (env : Env) (construct : ClientConstructor) (cfg : Config)
    (cache : List (String × Client)) : Option Client × List (String × Client) :=
  get_llm env construct cfg cache "google" "gemini-1.5-flash"

/-- The fallback-then-default tail of `LLMManager.get_llm_for_task`
(lines 196-207): with fallback enabled and a fallback entry present, try its
client once; otherwise (or if it also fails) fall back to the default LLM. -/
def get_llm_for_task_fallback (env : Env) (construct : ClientConstructor)
    (cfg : Config) (cache : List (String × Client)) (assignment : Assignment) :
    Option Client × List (String × Client) :=
  if cfg.settings.fallback_enabled then
    match assignment.fallback with
    | some F =>
      match get_llm env construct cfg cache F.provider F.model with
      | (some llm, cache2) => (some llm, cache2)
      | (none, cache2) => get_default_llm env construct cfg cache2
    | none => get_default_llm env construct cfg cache
  else get_default_llm env construct cfg cache

/-- `LLMManager.get_llm_for_task` (lines 171-207): development-mode override,
then the task's primary client, then (fallback enabled) the fallback client,
then the default LLM. All fallback decisions here are about CLIENT
CONSTRUCTION: this method performs no model invocation. -/
def get_llm_for_task (env : Env) (construct : ClientConstructor) (cfg : Config)
    (development_mode : Bool) (cache : List (String × Client)) (task : String) :
    Option Client × List (String × Client) :=
  match (if development_mode then cfg.development_override else none) with
  | some o => get_llm env construct cfg cache o.provider o.model
  | none =>
    let assignment := (listLookup cfg.task_assignments task).getD {}
    if assignment.primary.isNone && assignment.fallback.isNone then
      get_default_llm env construct cfg cache
    else
      match assignment.primary with
      | some P =>
        match get_llm env construct cfg cache P.provider P.model with
        | (some llm, cache1) => (some llm, cache1)
        | (none, cache1) => get_llm_for_task_fallback env construct cfg cache1 assignment
      | none => get_llm_for_task_fallback env construct cfg cache assignment

/-- The task's assignment as read by `estimate_cost`:
`config.get("task_assignments", {}).get(task, {})`. -/
def taskAssignment (cfg : Config) (task : String) : Assignment :=
  (listLookup cfg.task_assignments task).getD {}

/-- Pricing lookup
`config["providers"][provider]["models"][model]["cost_per_1k_tokens"]`;
`none` models the `KeyError` path. -/
def lookupCost (cfg : Config) (provider model : String) : Option ℚ :=
  match listLookup cfg.providers provider with
  | none => none
  | some pc => (listLookup pc.models model).map (fun mc => mc.cost_per_1k_tokens)

/-- `LLMManager.estimate_cost` (lines 243-262): `0` when the task has no
primary entry or on a pricing `KeyError`; otherwise
`(input_tokens + output_tokens) / 1000 * cost_per_1k`. Total: never raises. -/
def estimate_cost (cfg : Config) (task : String)
    (input_tokens output_tokens : Nat) : ℚ :=
  match (taskAssignment cfg task).primary with
  | none => 0
  | some primary =>
    match lookupCost cfg primary.provider primary.model with
    | none => 0
    | some cost_per_1k =>
      (((input_tokens + output_tokens : Nat) : ℚ) / 1000) * cost_per_1k

/-- Outcome oracle for the external chat-model constructors used in
`LLMService._initialize_providers` (provider, model, api key); `none` models
the constructor raising, which the source catches and logs. -/
abbrev ServiceConstructor := String → String → String → Option LLM

/-- One credential-guarded registration block of
`LLMService._initialize_providers`: register the provider only when its key is
present, non-empty and not a `your_`-prefixed placeholder, and the external
constructor succeeds. -/
def addIfConfigured (construct : ServiceConstructor)
    (ps : List (String × LLM)) (name model : String) (key : Option String) :
    List (String × LLM) :=
  match key with
  | none => ps
  | some k =>
    if k != "" && !(k.startsWith "your_") then
      match construct name model k with
      | some c => ps ++ [(name, c)]
      | none => ps
    else ps

/-- The Google key resolution of `_initialize_providers` (lines 70, 100-102):
`GOOGLE_API_KEY`, falling back to `GEMINI_API_KEY` when unset or empty. -/
def googleKey (env : Env) : Option String :=
  match env "GOOGLE_API_KEY" with
  | some k => if k == "" then env "GEMINI_API_KEY" else some k
  | none => env "GEMINI_API_KEY"

/-- The primary-alias selection of `_initialize_providers` (lines 194-217):
when any provider registered, alias `"primary"` to the first present provider
in the priority order deepseek > moonshot > volcengine > xai > google >
anthropic > openai. -/
def pickPrimary (ps : List (String × LLM)) : List (String × LLM) :=
  if ps.isEmpty then ps
  else
    match lookupProvider ps "deepseek" with
    | some c => ps ++ [("primary", c)]
    | none =>
      match lookupProvider ps "moonshot" with
      | some c => ps ++ [("primary", c)]
      | none =>
        match lookupProvider ps "volcengine" with
        | some c => ps ++ [("primary", c)]
        | none =>
          match lookupProvider ps "xai" with
          | some c => ps ++ [("primary", c)]
          | none =>
            match lookupProvider ps "google" with
            | some c => ps ++ [("primary", c)]
            | none =>
              match lookupProvider ps "anthropic" with
              | some c => ps ++ [("primary", c)]
              | none =>
                match lookupProvider ps "openai" with
                | some c => ps ++ [("primary", c)]
                | none => ps

/-- `LLMService._initialize_providers` (lines 53-217): build the registry from
environment credentials in source order, then install the `"primary"` alias.
Providers with missing, empty or `your_`-placeholder keys are skipped without
error, as are providers whose constructor raises. -/
def initialize_providers (env : Env) (construct : ServiceConstructor) :
    List (String × LLM) :=
  let ps : List (String × LLM) := []
  let ps := addIfConfigured construct ps "openai" "gpt-4o-mini" (env "OPENAI_API_KEY")
  let ps := addIfConfigured construct ps "anthropic" "claude-3-haiku-20240307" (env "ANTHROPIC_API_KEY")
  let ps := addIfConfigured construct ps "google" "gemini-1.5-flash" (googleKey env)
  let ps := addIfConfigured construct ps "xai" "grok-2-latest" (env "XAI_API_KEY")
  let ps := addIfConfigured construct ps "deepseek" "deepseek-chat" (env "DEEPSEEK_API_KEY")
  let ps := addIfConfigured construct ps "moonshot" "moonshot-v1-8k" (env "MOONSHOT_API_KEY")
  let ps := addIfConfigured construct ps "volcengine" "ep-20241212110452-zk2nd" (env "VOLCENGINE_API_KEY")
  pickPrimary ps

/-- One insight dict appended by `run_six_layer_analysis` (main.py lines
302-309); `confidence` is `0.85 + i * 0.02`, modelled exactly over `ℚ`. -/
structure Insight where
  insight_id : Nat
  title : String
  content : String
  confidence : ℚ
  data_sources : List String
  recommendations : List String
deriving DecidableEq, Repr

/-- One entry of the global `analysis_sessions` dict (main.py). Keys the
session dict may lack (`estimated_time_remaining`, `completion_time`,
`total_processing_time`, `error_message`) are `Option` fields; timestamps are
integer seconds and `total_processing_time` their signed difference. -/
structure AnalysisSession where
  status : String
  progress : Nat
  current_step : String
  query : String
  start_time : Nat
  insights : List Insight
  estimated_time_remaining : Option Nat
  completion_time : Option Nat
  total_processing_time : Option Int
  error_message : Option String
deriving DecidableEq, Repr

/-- The session store `analysis_sessions`, an ordered string-keyed dict. -/
abbrev SessionStore := List (String × AnalysisSession)

/-- Python dict assignment `d[k] = v`: replace in place if the key exists,
else append. -/
def storeInsert (m : SessionStore) (k : String) (v : AnalysisSession) :
    SessionStore :=
  if (m.find? (fun p => p.1 == k)).isSome then
    m.map (fun p => if p.1 == k then (k, v) else p)
  else m ++ [(k, v)]

/-- The session dict created by `start_analysis` (main.py lines 166-173). -/
def initialSession (query : String) (now : Nat) : AnalysisSession :=
  { status := "running"
    progress := 0
    current_step := "初始化分析..."
    query := query
    start_time := now
    insights := []
    estimated_time_remaining := none
    completion_time := none
    total_processing_time := none
    error_message := none }

/-- `start_analysis` (main.py lines 156-186): the id is
`f"analysis_{int(time.time())}"` — the integer-second timestamp `now` is the
sole source of freshness — and the new session is stored under it before the
step-runner is scheduled. Returns the id and the updated store. -/
def start_analysis (sessions : SessionStore) (now : Nat) (query : String) :
    String × SessionStore :=
  let analysis_id := "analysis_" ++ toString now
  (analysis_id, storeInsert sessions analysis_id (initialSession query now))

/-- The `HTTPException(status_code, detail)` raised by the endpoints. -/
structure HTTPError where
  status_code : Nat
  detail : String
deriving DecidableEq, Repr

/-- The response model of `get_analysis_status`. -/
structure AnalysisStatusResponse where
  analysis_id : String
  status : String
  progress : Nat
  current_step : String
  estimated_time_remaining : Option Nat
deriving DecidableEq, Repr

/-- `get_analysis_status` (main.py lines 188-204): 404 `"分析ID不存在"` when
the id is not a key of the store (the SessionNotFound error of the spec),
else a snapshot of the session. -/
def get_analysis_status (sessions : SessionStore) (analysis_id : String) :
    Except HTTPError AnalysisStatusResponse :=
  match listLookup sessions analysis_id with
  | none => Except.error { status_code := 404, detail := "分析ID不存在" }
  | some session =>
    Except.ok
      { analysis_id := analysis_id
        status := session.status
        progress := session.progress
        current_step := session.current_step
        estimated_time_remaining := session.estimated_time_remaining }

/-- The dict returned by `get_analysis_results`. -/
structure AnalysisResultsResponse where
  analysis_id : String
  query : String
  insights : List Insight
  completion_time : Option Nat
  total_processing_time : Option Int
deriving DecidableEq, Repr

/-- `get_analysis_results` (main.py lines 206-225): 404 `"分析ID不存在"` for an
unknown id (SessionNotFound), 400 `"分析尚未完成"` when the stored status is
not `"completed"` (SessionNotReady), else the results payload. -/
def get_analysis_results (sessions : SessionStore) (analysis_id : String) :
    Except HTTPError AnalysisResultsResponse :=
  match listLookup sessions analysis_id with
  | none => Except.error { status_code := 404, detail := "分析ID不存在" }
  | some session =>
    if session.status != "completed" then
      Except.error { status_code := 400, detail := "分析尚未完成" }
    else
      Except.ok
        { analysis_id := analysis_id
          query := session.query
          insights := session.insights
          completion_time := session.completion_time
          total_processing_time := session.total_processing_time }

/-- The fixed six-step sequence of `run_six_layer_analysis`
(main.py lines 283-290). -/
def analysis_steps : List String :=
  ["市场宏观趋势 & 视觉偏好分析",
   "产品弱点 & 供应链痛点分析",
   "潜在市场需求 & 产品创新机会",
   "季节性销售 & 定价策略分析",
   "产品功能 & 用户痛点关联性",
   "品牌表现 & 竞争分析"]

/-- The per-step progress block of the runner (main.py lines 294-296).
`progress` is `int((i / len(steps)) * 100)`; for `0 ≤ i < 6` the IEEE-double
computation truncates to the same value as the integer floor division
`i * 100 / 6` used here (0, 16, 33, 50, 66, 83). -/
def stepProgressUpdate (i : Nat) (step : String) (s : AnalysisSession) :
    AnalysisSession :=
  { s with
    current_step := "正在执行: " ++ step
    progress := i * 100 / analysis_steps.length
    estimated_time_remaining := some ((analysis_steps.length - i) * 30) }

/-- The insight dict appended after step `i` (main.py lines 302-311). -/
def mkInsight (query : String) (i : Nat) (step : String) : Insight :=
  { insight_id := i + 1
    title := step
    content := "基于" ++ query ++ "的" ++ step ++ "分析结果..."
    confidence := 85/100 + (i : ℚ) * (2/100)
    data_sources := ["MindsDB", "Vertex AI", "PyTrends"]
    recommendations :=
      ["建议1: 针对" ++ step ++ "的优化方案",
       "建议2: 针对" ++ step ++ "的优化方案"] }

/-- The completion block of the runner (main.py lines 313-318):
`total_processing_time` is `completion_time - start_time` in seconds. -/
def completeSession (endTime : Nat) (s : AnalysisSession) : AnalysisSession :=
  { s with
    status := "completed"
    progress := 100
    current_step := "分析完成"
    completion_time := some endTime
    total_processing_time := some ((endTime : Int) - (s.start_time : Int)) }

/-- The except-block of the runner (main.py lines 322-325): only `status` and
`error_message` change; in particular `progress` keeps its last value. -/
def errorSession (msg : String) (s : AnalysisSession) : AnalysisSession :=
  { s with status := "error", error_message := some msg }

/-- The loop of `run_six_layer_analysis` (main.py lines 292-318), as the list
of session states observable at suspension points: for each step, the state
set before `await asyncio.sleep(3)` is observable during the sleep; the
insight append and the next step's updates (or the completion block) run
atomically before the next suspension. `fault = some j` models the awaited
work of step `j` raising, which the except-block turns into the error state;
`fault = none` is a fault-free run. -/
def runnerGo (query : String) (endTime : Nat) (fault : Option (Fin 6))
    (faultMsg : String) : Nat → List String → AnalysisSession →
    List AnalysisSession
  | _, [], s => [completeSession endTime s]
  | i, step :: rest, s =>
    let s1 := stepProgressUpdate i step s
    if (fault.map Fin.val) == some i then
      [s1, errorSession faultMsg s1]
    else
      s1 :: runnerGo query endTime fault faultMsg (i + 1) rest
        { s1 with insights := s1.insights ++ [mkInsight query i step] }

/-- The observable states of one session across its lifetime: the state
created by `start_analysis` followed by the runner's states. -/
def runnerStates (query : String) (startTime endTime : Nat)
    (fault : Option (Fin 6)) (faultMsg : String) : List AnalysisSession :=
  initialSession query startTime ::
    runnerGo query endTime fault faultMsg 0 analysis_steps
      (initialSession query startTime)

/-- The final session state of a fault-free run. -/
def runnerFinal (query : String) (startTime endTime : Nat) : AnalysisSession :=
  ((runnerStates query startTime endTime none "").getLast?).getD
    (initialSession query startTime)

/-! ## Shared concrete inputs for witnesses and counterexamples -/

/-- A healthy provider client: every call succeeds with a fixed reply. -/
def llmOk : LLM := fun _ =>
  some { content := "ok", token_usage := some [], model_name := some "test-model" }

/-- A failing provider client: every call raises. -/
def llmRaises : LLM := fun _ => none

/-- A task configuration pricing `google/gemini-1.5-flash` at 2 per 1k
tokens, assigned as primary of `trend_analysis`. -/
def cfgW : Config :=
  { providers :=
      [("google",
        { api_key_env := some "GOOGLE_API_KEY"
          models := [("gemini-1.5-flash", { cost_per_1k_tokens := 2 })] })]
    task_assignments :=
      [("trend_analysis",
        { primary := some { provider := "google", model := "gemini-1.5-flash" } })] }

/-! ## Claims -/

/-- Claim C2: with zero providers registered, `chat` returns the deterministic
mock response tagged provider `"mock"` for every input message, every system
prompt and every (even explicitly named) provider argument; being a total
function of these inputs, it never raises to its caller. -/
theorem chat_zero_providers_mock (message : String)
    (system_prompt provider : Option String) :
    chat [] message system_prompt provider = generate_mock_response message ∧
    (chat [] message system_prompt provider).llm_provider = "mock" := by
  have h : selectLLM [] provider = none := by
    cases provider with
    | none => rfl
    | some p =>
      by_cases hp : p != ""
      · simp [selectLLM, hp, lookupProvider, listLookup, selectDefault]
      · simp [selectLLM, hp, lookupProvider, listLookup, selectDefault]
  have h1 : chat [] message system_prompt provider = generate_mock_response message := by
    simp [chat, h]
  exact ⟨h1, by rw [h1]; rfl⟩

/-- Claim C10: a `chat` call naming a provider absent from the registry does
not fail: it behaves exactly as a call with no named provider (primary alias,
else first registered provider, else mock), and invokes the same clients. -/
theorem chat_unknown_provider_ignored (providers : List (String × LLM))
    (message : String) (system_prompt : Option String) (p : String)
    (h : lookupProvider providers p = none) :
    chat providers message system_prompt (some p) =
      chat providers message system_prompt none ∧
    chatInvoked providers (some p) = chatInvoked providers none := by
  have hsel : selectLLM providers (some p) = selectLLM providers none := by
    by_cases hp : p != ""
    · simp [selectLLM, hp, h]
    · simp [selectLLM, hp]
  exact ⟨by simp [chat, hsel], by simp [chatInvoked, hsel]⟩

/-- Witness for C10 at a concrete registry and unknown provider name. -/
theorem chat_unknown_provider_ignored_witness :
    chat [("google", llmOk)] "hello" none (some "missing") =
      chat [("google", llmOk)] "hello" none none ∧
    chatInvoked [("google", llmOk)] (some "missing") =
      chatInvoked [("google", llmOk)] none :=
  chat_unknown_provider_ignored [("google", llmOk)] "hello" none "missing" rfl

/-- Claim C3: `get_analysis_status` on an id that is not a key of the session
store fails with the 404 SessionNotFound error, and `get_analysis_results` on
any stored session whose status is not `"completed"` (in particular a freshly
started one, whose status is `"running"`) fails with the 400 SessionNotReady
error. -/
theorem session_lookup_errors (sessions : SessionStore) (analysis_id : String) :
    (listLookup sessions analysis_id = none →
      get_analysis_status sessions analysis_id =
        Except.error { status_code := 404, detail := "分析ID不存在" }) ∧
    (∀ s, listLookup sessions analysis_id = some s → s.status ≠ "completed" →
      get_analysis_results sessions analysis_id =
        Except.error { status_code := 400, detail := "分析尚未完成" }) := by
  constructor
  · intro h
    simp [get_analysis_status, h]
  · intro s hs hne
    simp [get_analysis_results, hs, hne]

/-- Witness for C3: a store holding one freshly started session; an unknown id
is SessionNotFound, the fresh session's results are SessionNotReady. -/
theorem session_lookup_errors_witness :
    get_analysis_status (start_analysis [] 5 "earbuds").2 "missing" =
      Except.error { status_code := 404, detail := "分析ID不存在" } ∧
    get_analysis_results (start_analysis [] 5 "earbuds").2 "analysis_5" =
      Except.error { status_code := 400, detail := "分析尚未完成" } :=
  ⟨(session_lookup_errors (start_analysis [] 5 "earbuds").2 "missing").1 rfl,
   (session_lookup_errors (start_analysis [] 5 "earbuds").2 "analysis_5").2
     (initialSession "earbuds" 5) rfl (by decide)⟩

/-- Claim C5 (code bug): the session id is `"analysis_" ++ int(time.time())`,
so two `start_analysis` calls in the same integer second return the SAME id
and the second silently overwrites the first session — refuting the claimed
uniqueness/independence at the concrete timestamp 1000. -/
theorem start_analysis_same_second_collision :
    (start_analysis [] 1000 "wireless earbuds").1 =
      (start_analysis (start_analysis [] 1000 "wireless earbuds").2
        1000 "smart watches").1 ∧
    ((start_analysis (start_analysis [] 1000 "wireless earbuds").2
        1000 "smart watches").2).length = 1 ∧
    listLookup
      ((start_analysis (start_analysis [] 1000 "wireless earbuds").2
        1000 "smart watches").2) ("analysis_" ++ toString 1000) =
      some (initialSession "smart watches" 1000) :=
  ⟨rfl, rfl, rfl⟩

/-- The rate `estimate_cost` effectively applies: the primary candidate's
`cost_per_1k_tokens`, or 0 when the primary or its pricing entry is absent. -/
def primaryRate (cfg : Config) (task : String) : ℚ :=
  match (taskAssignment cfg task).primary with
  | none => 0
  | some P => (lookupCost cfg P.provider P.model).getD 0

/-- `estimate_cost` always computes `(input + output) / 1000 * primaryRate`. -/
theorem estimate_cost_eq_rate (cfg : Config) (task : String) (i o : Nat) :
    estimate_cost cfg task i o =
      (((i + o : Nat) : ℚ) / 1000) * primaryRate cfg task := by
  unfold estimate_cost primaryRate
  cases (taskAssignment cfg task).primary with
  | none => simp
  | some P =>
    cases hc : lookupCost cfg P.provider P.model with
    | none => simp [hc]
    | some r => simp [hc]

/-- Claim C6: the cost estimate is additive in the token counts —
`estimate(a1,b1) + estimate(a2,b2) = estimate(a1+a2,b1+b2)` — and whenever the
task has a primary candidate with a pricing entry `r`, the estimate equals
`(input + output) / 1000 * r` (arithmetic modelled exactly over `ℚ`). -/
theorem estimate_cost_linear (cfg : Config) (task : String) (a1 b1 a2 b2 : Nat) :
    estimate_cost cfg task a1 b1 + estimate_cost cfg task a2 b2 =
      estimate_cost cfg task (a1 + a2) (b1 + b2) ∧
    (∀ P r, (taskAssignment cfg task).primary = some P →
      lookupCost cfg P.provider P.model = some r →
      estimate_cost cfg task a1 b1 = (((a1 + b1 : Nat) : ℚ) / 1000) * r) := by
  constructor
  · rw [estimate_cost_eq_rate, estimate_cost_eq_rate, estimate_cost_eq_rate]
    push_cast
    ring
  · intro P r hP hr
    simp [estimate_cost, hP, hr]

/-- Witness for C6 at a concrete priced configuration: 300+700 tokens at rate
2 split two ways. -/
theorem estimate_cost_linear_witness :
    estimate_cost cfgW "trend_analysis" 100 200 +
      estimate_cost cfgW "trend_analysis" 200 500 =
      estimate_cost cfgW "trend_analysis" 300 700 ∧
    estimate_cost cfgW "trend_analysis" 100 200 =
      (((100 + 200 : Nat) : ℚ) / 1000) * 2 :=
  ⟨(estimate_cost_linear cfgW "trend_analysis" 100 200 200 500).1,
   (estimate_cost_linear cfgW "trend_analysis" 100 200 0 0).2
     { provider := "google", model := "gemini-1.5-flash" } 2
     rfl rfl⟩

/-- Claim C7: when the task has no primary candidate, or the primary's pricing
entry is missing from the provider configuration, `estimate_cost` returns 0;
as a total function it never raises (the source catches the `KeyError`). -/
theorem estimate_cost_missing_zero (cfg : Config) (task : String)
    (input_tokens output_tokens : Nat)
    (h : (taskAssignment cfg task).primary = none ∨
      ∀ P, (taskAssignment cfg task).primary = some P →
        lookupCost cfg P.provider P.model = none) :
    estimate_cost cfg task input_tokens output_tokens = 0 := by
  rcases h with h | h
  · simp [estimate_cost, h]
  · cases hp : (taskAssignment cfg task).primary with
    | none => simp [estimate_cost, hp]
    | some P => simp [estimate_cost, hp, h P hp]

/-- Witness for C7: an empty configuration has no primary for any task. -/
theorem estimate_cost_missing_zero_witness :
    estimate_cost {} "trend_analysis" 5 7 = 0 :=
  estimate_cost_missing_zero {} "trend_analysis" 5 7 (Or.inl rfl)

/-- Transport of a monotonicity fact along a computed progress trace. -/
theorem chain_progress_of_eq (L : List Nat) {l : List AnalysisSession}
    (hmap : l.map AnalysisSession.progress = L)
    (hL : List.Chain' (· ≤ ·) L) :
    List.Chain' (· ≤ ·) (l.map AnalysisSession.progress) := hmap ▸ hL

/-- Transport of the progress/status invariant along a computed trace of
(progress, status) pairs. -/
theorem progress_status_invariant (L : List (Nat × String))
    {l : List AnalysisSession}
    (hmap : l.map (fun s => (s.progress, s.status)) = L)
    (hL : ∀ p ∈ L, p.1 = 100 ↔ p.2 = "completed") :
    ∀ s ∈ l, s.progress = 100 ↔ s.status = "completed" := by
  intro s hs
  have hm : (s.progress, s.status) ∈ L :=
    hmap ▸ List.mem_map_of_mem (fun s => (s.progress, s.status)) hs
  exact hL _ hm

/-- Claim C4: over the observable states of a session (any fault scenario),
the progress values form a non-decreasing sequence, progress equals exactly
100 iff the status is `"completed"`, and when a step faults the final
(`"error"`) state keeps exactly the progress of the preceding observable
state. -/
theorem runner_progress_invariants (query : String) (startTime endTime : Nat)
    (faultMsg : String) (fault : Option (Fin 6)) :
    List.Chain' (· ≤ ·)
      ((runnerStates query startTime endTime fault faultMsg).map
        AnalysisSession.progress) ∧
    (∀ s ∈ runnerStates query startTime endTime fault faultMsg,
      s.progress = 100 ↔ s.status = "completed") ∧
    (∀ j : Fin 6, fault = some j →
      ((runnerStates query startTime endTime fault faultMsg).map
        AnalysisSession.progress).getLast? =
        (((runnerStates query startTime endTime fault faultMsg).dropLast).map
          AnalysisSession.progress).getLast? ∧
      ((runnerStates query startTime endTime fault faultMsg).map
        AnalysisSession.status).getLast? = some "error") := by
  rcases fault with _ | j
  · exact ⟨chain_progress_of_eq [0, 0, 16, 33, 50, 66, 83, 100] rfl (by simp [List.chain'_cons]),
      progress_status_invariant
        [(0, "running"), (0, "running"), (16, "running"), (33, "running"),
         (50, "running"), (66, "running"), (83, "running"), (100, "completed")]
        rfl (by decide),
      fun _ hj => Option.noConfusion hj⟩
  · fin_cases j
    · exact ⟨chain_progress_of_eq [0, 0, 0] rfl (by simp [List.chain'_cons]),
        progress_status_invariant
          [(0, "running"), (0, "running"), (0, "error")] rfl (by decide),
        fun _ _ => ⟨rfl, rfl⟩⟩
    · exact ⟨chain_progress_of_eq [0, 0, 16, 16] rfl (by simp [List.chain'_cons]),
        progress_status_invariant
          [(0, "running"), (0, "running"), (16, "running"), (16, "error")]
          rfl (by decide),
        fun _ _ => ⟨rfl, rfl⟩⟩
    · exact ⟨chain_progress_of_eq [0, 0, 16, 33, 33] rfl (by simp [List.chain'_cons]),
        progress_status_invariant
          [(0, "running"), (0, "running"), (16, "running"), (33, "running"),
           (33, "error")] rfl (by decide),
        fun _ _ => ⟨rfl, rfl⟩⟩
    · exact ⟨chain_progress_of_eq [0, 0, 16, 33, 50, 50] rfl (by simp [List.chain'_cons]),
        progress_status_invariant
          [(0, "running"), (0, "running"), (16, "running"), (33, "running"),
           (50, "running"), (50, "error")] rfl (by decide),
        fun _ _ => ⟨rfl, rfl⟩⟩
    · exact ⟨chain_progress_of_eq [0, 0, 16, 33, 50, 66, 66] rfl (by simp [List.chain'_cons]),
        progress_status_invariant
          [(0, "running"), (0, "running"), (16, "running"), (33, "running"),
           (50, "running"), (66, "running"), (66, "error")] rfl (by decide),
        fun _ _ => ⟨rfl, rfl⟩⟩
    · exact ⟨chain_progress_of_eq [0, 0, 16, 33, 50, 66, 83, 83] rfl (by simp [List.chain'_cons]),
        progress_status_invariant
          [(0, "running"), (0, "running"), (16, "running"), (33, "running"),
           (50, "running"), (66, "running"), (83, "running"), (83, "error")]
          rfl (by decide),
        fun _ _ => ⟨rfl, rfl⟩⟩

/-- Witness for C4 at a concrete query, timestamps and fault location. -/
theorem runner_progress_invariants_witness :
    List.Chain' (· ≤ ·)
      ((runnerStates "q" 0 9 (some 2) "boom").map AnalysisSession.progress) ∧
    ((runnerStates "q" 0 9 (some 2) "boom").map
      AnalysisSession.status).getLast? = some "error" :=
  ⟨(runner_progress_invariants "q" 0 9 "boom" (some 2)).1,
   ((runner_progress_invariants "q" 0 9 "boom" (some 2)).2.2 2 rfl).2⟩

/-- Claim C8: a fault-free run ends in a state with status `"completed"`,
progress exactly 100, exactly six insights whose sequence ids are 1..6 and
whose titles are the six steps in order, and total processing time equal to
completion time minus start time; `get_analysis_results` on a store holding
that state returns it successfully. -/
theorem runner_complete_results (query : String) (startTime endTime : Nat)
    (i : String) :
    (runnerStates query startTime endTime none "").getLast? =
      some (runnerFinal query startTime endTime) ∧
    (runnerFinal query startTime endTime).status = "completed" ∧
    (runnerFinal query startTime endTime).progress = 100 ∧
    (runnerFinal query startTime endTime).insights.map Insight.insight_id =
      [1, 2, 3, 4, 5, 6] ∧
    (runnerFinal query startTime endTime).insights.map Insight.title =
      analysis_steps ∧
    (runnerFinal query startTime endTime).completion_time = some endTime ∧
    (runnerFinal query startTime endTime).total_processing_time =
      some ((endTime : Int) - (startTime : Int)) ∧
    get_analysis_results [(i, runnerFinal query startTime endTime)] i =
      Except.ok
        { analysis_id := i
          query := query
          insights := (runnerFinal query startTime endTime).insights
          completion_time := some endTime
          total_processing_time := some ((endTime : Int) - (startTime : Int)) } := by
  refine ⟨rfl, rfl, rfl, rfl, rfl, rfl, rfl, ?_⟩
  simp [get_analysis_results, listLookup, runnerFinal, runnerStates, runnerGo,
    analysis_steps, stepProgressUpdate, completeSession, initialSession]

/-- Registry in which the task-preferred provider `"google"` raises on every
call while `"anthropic"` is healthy; the `"primary"` alias points at google
per the initializer's priority order. -/
def registryC1 : List (String × LLM) :=
  [("google", llmRaises), ("anthropic", llmOk), ("primary", llmRaises)]

set_option maxRecDepth 8192

/-- Claim C1 counterexample: for task type `"market_trends"` the preferred
candidate `"google"` raises on invocation while the healthy candidate
`"anthropic"` is registered; yet the executor returns the MOCK response, the
invocation list is exactly `["google"]`, and the fallback candidate is
invoked zero times — not once — refuting the claim as stated. -/
theorem call_failure_skips_fallback_counterexample :
    (analyze_with_best_llm registryC1 "market_trends" "analyze the market").llm_provider
      = "mock" ∧
    (analyze_with_best_llm registryC1 "market_trends" "analyze the market").response
      ≠ "ok" ∧
    analyzeInvoked registryC1 "market_trends" = ["google"] ∧
    "anthropic" ∉ analyzeInvoked registryC1 "market_trends" := by
  exact ⟨rfl, by decide, rfl, by decide⟩

/-- Claim C1 (amended): (a) in the invocation executor (`LLMService.chat`),
when the selected candidate's call raises, the mock response is returned
directly and the invocation list is exactly the selected candidate — no
fallback candidate is ever invoked; (b) primary-to-fallback failover exists
only at client-construction time: in `LLMManager.get_llm_for_task`, when the
primary's client construction fails and fallback is enabled, the fallback
client is constructed exactly once and returned. -/
theorem call_failure_mock_and_construction_fallback :
    (∀ providers message system_prompt provider name llm,
      selectLLM providers provider = some (name, llm) →
      llm (buildMessages system_prompt message) = none →
      chat providers message system_prompt provider =
        generate_mock_response message ∧
      chatInvoked providers provider = [name]) ∧
    (∀ env construct cfg task a P F c,
      listLookup cfg.task_assignments task = some a →
      a.primary = some P →
      a.fallback = some F →
      cfg.settings.fallback_enabled = true →
      create_llm env construct cfg P.provider P.model = none →
      create_llm env construct cfg F.provider F.model = some c →
      get_llm_for_task env construct cfg false [] task =
        (some c, [(F.provider ++ ":" ++ F.model, c)])) := by
  constructor
  · intro providers message system_prompt provider name llm hsel hraise
    exact ⟨by simp [chat, hsel, hraise], by simp [chatInvoked, hsel]⟩
  · intro env construct cfg task a P F c ha hP hF hfb hPc hFc
    simp only [get_llm_for_task, ha, Option.getD_some, hP, hF]
    simp [get_llm, get_llm_for_task_fallback, get_default_llm, listLookup,
      hPc, hFc, hfb, hF]

/-- Environment for the C1 witness: openai and google keys set. -/
def envC1 : Env := fun v =>
  if v == "OPENAI_API_KEY" then some "sk-test"
  else if v == "GOOGLE_API_KEY" then some "g-test" else none

/-- External constructor whose openai construction raises while every other
provider constructs fine. -/
def constructFailOpenai : ClientConstructor := fun p m _ _ =>
  if p == "openai" then none else some { provider := p, model := m }

/-- Task configuration for the C1 witness: openai primary, google fallback. -/
def cfgC1 : Config :=
  { task_assignments :=
      [("trend_analysis",
        { primary := some { provider := "openai", model := "gpt-4o-mini" }
          fallback := some { provider := "google", model := "gemini-1.5-flash" } })] }

/-- Witness for the amended C1 at concrete inputs: a raising selected
candidate yields the mock with invocation list `["google"]`, and a failed
primary construction yields the fallback client, cached once. -/
theorem call_failure_mock_and_construction_fallback_witness :
    (chat registryC1 "analyze" none (some "google") =
      generate_mock_response "analyze" ∧
     chatInvoked registryC1 (some "google") = ["google"]) ∧
    get_llm_for_task envC1 constructFailOpenai cfgC1 false [] "trend_analysis" =
      (some { provider := "google", model := "gemini-1.5-flash" },
       [("google:gemini-1.5-flash",
         { provider := "google", model := "gemini-1.5-flash" })]) :=
  ⟨call_failure_mock_and_construction_fallback.1 registryC1 "analyze" none
      (some "google") "google" llmRaises rfl rfl,
   call_failure_mock_and_construction_fallback.2 envC1 constructFailOpenai
      cfgC1 "trend_analysis"
      { primary := some { provider := "openai", model := "gpt-4o-mini" }
        fallback := some { provider := "google", model := "gemini-1.5-flash" } }
      { provider := "openai", model := "gpt-4o-mini" }
      { provider := "google", model := "gemini-1.5-flash" }
      { provider := "google", model := "gemini-1.5-flash" }
      rfl rfl rfl rfl rfl rfl⟩

/-- A registration block is skipped whenever its key is missing, empty or a
`your_`-prefixed placeholder. -/
theorem addIfConfigured_skip (construct : ServiceConstructor)
    (ps : List (String × LLM)) (name model : String) (key : Option String)
    (h : ∀ k, key = some k → k = "" ∨ k.startsWith "your_" = true) :
    addIfConfigured construct ps name model key = ps := by
  cases key with
  | none => rfl
  | some k =>
    rcases h k rfl with h1 | h1
    · simp [addIfConfigured, h1]
    · simp [addIfConfigured, h1]

/-- When every environment value is empty or a placeholder, so is the
resolved google key (which falls back from `GOOGLE_API_KEY` to
`GEMINI_API_KEY`). -/
theorem googleKey_bad (env : Env)
    (h : ∀ v k, env v = some k → k = "" ∨ k.startsWith "your_" = true) :
    ∀ k, googleKey env = some k → k = "" ∨ k.startsWith "your_" = true := by
  intro k hk
  unfold googleKey at hk
  split at hk
  · rename_i g heq
    split at hk
    · exact h _ _ hk
    · cases hk
      exact h _ _ heq
  · exact h _ _ hk

/-- The credential value governing each provider's registration block in
`_initialize_providers`: the provider's own environment variable, with
google's `GOOGLE_API_KEY`-then-`GEMINI_API_KEY` resolution. -/
def serviceCredential (env : Env) (p : String) : Option String :=
  if p == "openai" then env "OPENAI_API_KEY"
  else if p == "anthropic" then env "ANTHROPIC_API_KEY"
  else if p == "google" then googleKey env
  else if p == "xai" then env "XAI_API_KEY"
  else if p == "deepseek" then env "DEEPSEEK_API_KEY"
  else if p == "moonshot" then env "MOONSHOT_API_KEY"
  else env "VOLCENGINE_API_KEY"

/-- The "not configured" test of the source's registration guard
`key and not key.startswith("your_")`: a credential is not configured when
unset, empty, or `your_`-prefixed. -/
def keyNotConfigured : Option String → Bool
  | none => true
  | some k => k == "" || k.startsWith "your_"

/-- A registration block is skipped whenever its key is not configured. -/
theorem addIfConfigured_skip_of_notConfigured (construct : ServiceConstructor)
    (ps : List (String × LLM)) (name model : String) (key : Option String)
    (h : keyNotConfigured key = true) :
    addIfConfigured construct ps name model key = ps := by
  apply addIfConfigured_skip
  intro k hk
  subst hk
  simpa [keyNotConfigured] using h

/-- Appending a single differently-named entry does not change a lookup. -/
theorem listLookup_append_single_ne {α : Type} (ps : List (String × α))
    (name : String) (c : α) (q : String) (h : q ≠ name) :
    listLookup (ps ++ [(name, c)]) q = listLookup ps q := by
  have hb : (name == q) = false := beq_eq_false_iff_ne.mpr (Ne.symm h)
  unfold listLookup
  rw [List.find?_append]
  cases hf : List.find? (fun p => p.1 == q) ps with
  | some v => simp
  | none => simp [hb]

/-- `addIfConfigured` registers only its own provider name: lookups for other
names pass through unchanged. -/
theorem lookupProvider_addIfConfigured_ne (construct : ServiceConstructor)
    (ps : List (String × LLM)) (name model : String) (key : Option String)
    (q : String) (h : q ≠ name) :
    lookupProvider (addIfConfigured construct ps name model key) q =
      lookupProvider ps q := by
  cases key with
  | none => rfl
  | some k =>
    simp only [addIfConfigured]
    split
    · cases hc : construct name model k with
      | none => rfl
      | some c => exact listLookup_append_single_ne ps name c q h
    · rfl

/-- `pickPrimary` either keeps the registry or appends only the `"primary"`
alias. -/
theorem pickPrimary_eq_self_or_append (ps : List (String × LLM)) :
    pickPrimary ps = ps ∨ ∃ c, pickPrimary ps = ps ++ [("primary", c)] := by
  unfold pickPrimary
  by_cases he : ps.isEmpty = true
  · rw [if_pos he]
    exact Or.inl rfl
  · rw [if_neg he]
    cases h1 : lookupProvider ps "deepseek" with
    | some c => exact Or.inr ⟨c, rfl⟩
    | none =>
      cases h2 : lookupProvider ps "moonshot" with
      | some c => exact Or.inr ⟨c, rfl⟩
      | none =>
        cases h3 : lookupProvider ps "volcengine" with
        | some c => exact Or.inr ⟨c, rfl⟩
        | none =>
          cases h4 : lookupProvider ps "xai" with
          | some c => exact Or.inr ⟨c, rfl⟩
          | none =>
            cases h5 : lookupProvider ps "google" with
            | some c => exact Or.inr ⟨c, rfl⟩
            | none =>
              cases h6 : lookupProvider ps "anthropic" with
              | some c => exact Or.inr ⟨c, rfl⟩
              | none =>
                cases h7 : lookupProvider ps "openai" with
                | some c => exact Or.inr ⟨c, rfl⟩
                | none => exact Or.inl rfl

/-- The `"primary"` alias never shadows a provider-name lookup. -/
theorem lookupProvider_pickPrimary_ne (ps : List (String × LLM)) (q : String)
    (h : q ≠ "primary") :
    lookupProvider (pickPrimary ps) q = lookupProvider ps q := by
  rcases pickPrimary_eq_self_or_append ps with he | ⟨c, he⟩
  · rw [he]
  · rw [he]
    exact listLookup_append_single_ne ps "primary" c q h

/-- Claim C9 (amended): (a) the registry initializer excludes, without error,
every provider whose own credential is unset, empty or matches the `your_`
placeholder prefix — in ANY environment, also when other providers hold good
keys, such a provider is absent from the registry; (b) with only
unset/empty/placeholder credentials the whole registry is empty; (c)
`LLMManager._create_llm` returns absent for an unset or EMPTY credential for
each supported provider (but does not itself test the placeholder pattern —
see the counterexample). -/
theorem credential_not_configured_handling :
    (∀ env construct p,
      p ∈ ["openai", "anthropic", "google", "xai", "deepseek", "moonshot",
           "volcengine"] →
      keyNotConfigured (serviceCredential env p) = true →
      lookupProvider (initialize_providers env construct) p = none) ∧
    (∀ env construct,
      (∀ v k, env v = some k → k = "" ∨ k.startsWith "your_" = true) →
      initialize_providers env construct = []) ∧
    (∀ env construct cfg model,
      env "GOOGLE_API_KEY" = none ∨ env "GOOGLE_API_KEY" = some "" →
      create_llm env construct cfg "google" model = none) ∧
    (∀ env construct cfg model,
      env "OPENAI_API_KEY" = none ∨ env "OPENAI_API_KEY" = some "" →
      create_llm env construct cfg "openai" model = none) ∧
    (∀ env construct cfg model,
      env "ANTHROPIC_API_KEY" = none ∨ env "ANTHROPIC_API_KEY" = some "" →
      create_llm env construct cfg "anthropic" model = none) ∧
    (∀ env construct cfg model,
      env "XAI_API_KEY" = none ∨ env "XAI_API_KEY" = some "" →
      create_llm env construct cfg "xai" model = none) := by
  refine ⟨?_, ?_, ?_, ?_, ?_, ?_⟩
  · intro env construct p hp hbad
    fin_cases hp
    · simp only [initialize_providers]
      rw [addIfConfigured_skip_of_notConfigured construct [] "openai"
          "gpt-4o-mini" (env "OPENAI_API_KEY") hbad,
        lookupProvider_pickPrimary_ne _ "openai" (by decide),
        lookupProvider_addIfConfigured_ne construct _ "volcengine" _ _ "openai" (by decide),
        lookupProvider_addIfConfigured_ne construct _ "moonshot" _ _ "openai" (by decide),
        lookupProvider_addIfConfigured_ne construct _ "deepseek" _ _ "openai" (by decide),
        lookupProvider_addIfConfigured_ne construct _ "xai" _ _ "openai" (by decide),
        lookupProvider_addIfConfigured_ne construct _ "google" _ _ "openai" (by decide),
        lookupProvider_addIfConfigured_ne construct _ "anthropic" _ _ "openai" (by decide)]
      rfl
    · simp only [initialize_providers]
      rw [addIfConfigured_skip_of_notConfigured construct _ "anthropic"
          "claude-3-haiku-20240307" (env "ANTHROPIC_API_KEY") hbad,
        lookupProvider_pickPrimary_ne _ "anthropic" (by decide),
        lookupProvider_addIfConfigured_ne construct _ "volcengine" _ _ "anthropic" (by decide),
        lookupProvider_addIfConfigured_ne construct _ "moonshot" _ _ "anthropic" (by decide),
        lookupProvider_addIfConfigured_ne construct _ "deepseek" _ _ "anthropic" (by decide),
        lookupProvider_addIfConfigured_ne construct _ "xai" _ _ "anthropic" (by decide),
        lookupProvider_addIfConfigured_ne construct _ "google" _ _ "anthropic" (by decide),
        lookupProvider_addIfConfigured_ne construct _ "openai" _ _ "anthropic" (by decide)]
      rfl
    · simp only [initialize_providers]
      rw [addIfConfigured_skip_of_notConfigured construct _ "google"
          "gemini-1.5-flash" (googleKey env) hbad,
        lookupProvider_pickPrimary_ne _ "google" (by decide),
        lookupProvider_addIfConfigured_ne construct _ "volcengine" _ _ "google" (by decide),
        lookupProvider_addIfConfigured_ne construct _ "moonshot" _ _ "google" (by decide),
        lookupProvider_addIfConfigured_ne construct _ "deepseek" _ _ "google" (by decide),
        lookupProvider_addIfConfigured_ne construct _ "xai" _ _ "google" (by decide),
        lookupProvider_addIfConfigured_ne construct _ "anthropic" _ _ "google" (by decide),
        lookupProvider_addIfConfigured_ne construct _ "openai" _ _ "google" (by decide)]
      rfl
    · simp only [initialize_providers]
      rw [addIfConfigured_skip_of_notConfigured construct _ "xai"
          "grok-2-latest" (env "XAI_API_KEY") hbad,
        lookupProvider_pickPrimary_ne _ "xai" (by decide),
        lookupProvider_addIfConfigured_ne construct _ "volcengine" _ _ "xai" (by decide),
        lookupProvider_addIfConfigured_ne construct _ "moonshot" _ _ "xai" (by decide),
        lookupProvider_addIfConfigured_ne construct _ "deepseek" _ _ "xai" (by decide),
        lookupProvider_addIfConfigured_ne construct _ "google" _ _ "xai" (by decide),
        lookupProvider_addIfConfigured_ne construct _ "anthropic" _ _ "xai" (by decide),
        lookupProvider_addIfConfigured_ne construct _ "openai" _ _ "xai" (by decide)]
      rfl
    · simp only [initialize_providers]
      rw [addIfConfigured_skip_of_notConfigured construct _ "deepseek"
          "deepseek-chat" (env "DEEPSEEK_API_KEY") hbad,
        lookupProvider_pickPrimary_ne _ "deepseek" (by decide),
        lookupProvider_addIfConfigured_ne construct _ "volcengine" _ _ "deepseek" (by decide),
        lookupProvider_addIfConfigured_ne construct _ "moonshot" _ _ "deepseek" (by decide),
        lookupProvider_addIfConfigured_ne construct _ "xai" _ _ "deepseek" (by decide),
        lookupProvider_addIfConfigured_ne construct _ "google" _ _ "deepseek" (by decide),
        lookupProvider_addIfConfigured_ne construct _ "anthropic" _ _ "deepseek" (by decide),
        lookupProvider_addIfConfigured_ne construct _ "openai" _ _ "deepseek" (by decide)]
      rfl
    · simp only [initialize_providers]
      rw [addIfConfigured_skip_of_notConfigured construct _ "moonshot"
          "moonshot-v1-8k" (env "MOONSHOT_API_KEY") hbad,
        lookupProvider_pickPrimary_ne _ "moonshot" (by decide),
        lookupProvider_addIfConfigured_ne construct _ "volcengine" _ _ "moonshot" (by decide),
        lookupProvider_addIfConfigured_ne construct _ "deepseek" _ _ "moonshot" (by decide),
        lookupProvider_addIfConfigured_ne construct _ "xai" _ _ "moonshot" (by decide),
        lookupProvider_addIfConfigured_ne construct _ "google" _ _ "moonshot" (by decide),
        lookupProvider_addIfConfigured_ne construct _ "anthropic" _ _ "moonshot" (by decide),
        lookupProvider_addIfConfigured_ne construct _ "openai" _ _ "moonshot" (by decide)]
      rfl
    · simp only [initialize_providers]
      rw [addIfConfigured_skip_of_notConfigured construct _ "volcengine"
          "ep-20241212110452-zk2nd" (env "VOLCENGINE_API_KEY") hbad,
        lookupProvider_pickPrimary_ne _ "volcengine" (by decide),
        lookupProvider_addIfConfigured_ne construct _ "moonshot" _ _ "volcengine" (by decide),
        lookupProvider_addIfConfigured_ne construct _ "deepseek" _ _ "volcengine" (by decide),
        lookupProvider_addIfConfigured_ne construct _ "xai" _ _ "volcengine" (by decide),
        lookupProvider_addIfConfigured_ne construct _ "google" _ _ "volcengine" (by decide),
        lookupProvider_addIfConfigured_ne construct _ "anthropic" _ _ "volcengine" (by decide),
        lookupProvider_addIfConfigured_ne construct _ "openai" _ _ "volcengine" (by decide)]
      rfl
  · intro env construct h
    simp only [initialize_providers]
    rw [addIfConfigured_skip construct [] "openai" "gpt-4o-mini"
        (env "OPENAI_API_KEY") (fun k hk => h _ k hk),
      addIfConfigured_skip construct [] "anthropic" "claude-3-haiku-20240307"
        (env "ANTHROPIC_API_KEY") (fun k hk => h _ k hk),
      addIfConfigured_skip construct [] "google" "gemini-1.5-flash"
        (googleKey env) (googleKey_bad env h),
      addIfConfigured_skip construct [] "xai" "grok-2-latest"
        (env "XAI_API_KEY") (fun k hk => h _ k hk),
      addIfConfigured_skip construct [] "deepseek" "deepseek-chat"
        (env "DEEPSEEK_API_KEY") (fun k hk => h _ k hk),
      addIfConfigured_skip construct [] "moonshot" "moonshot-v1-8k"
        (env "MOONSHOT_API_KEY") (fun k hk => h _ k hk),
      addIfConfigured_skip construct [] "volcengine" "ep-20241212110452-zk2nd"
        (env "VOLCENGINE_API_KEY") (fun k hk => h _ k hk)]
    rfl
  · intro env construct cfg model h
    rcases h with h | h <;> simp [create_llm, h]
  · intro env construct cfg model h
    rcases h with h | h <;> simp [create_llm, h]
  · intro env construct cfg model h
    rcases h with h | h <;> simp [create_llm, h]
  · intro env construct cfg model h
    rcases h with h | h <;> simp [create_llm, h]

/-- Environment whose only credential is a `your_`-prefixed placeholder. -/
def envPlaceholder : Env := fun v =>
  if v == "GOOGLE_API_KEY" then some "your_google_api_key_here" else none

/-- External constructor that always succeeds (a LangChain client constructor
does not validate the key's value at construction time). -/
def constructClientOk : ClientConstructor := fun p m _ _ =>
  some { provider := p, model := m }

/-- Claim C9 counterexample: `_create_llm` does NOT treat a `your_`-prefixed
placeholder credential as "not configured": with
`GOOGLE_API_KEY="your_google_api_key_here"` and a succeeding constructor,
client construction returns a client, not absent. -/
theorem placeholder_construction_not_absent :
    create_llm envPlaceholder constructClientOk {} "google" "gemini-1.5-flash" =
      some { provider := "google", model := "gemini-1.5-flash" } := rfl

/-- The all-unset environment. -/
def envNone : Env := fun _ => none

/-- A service constructor that always succeeds. -/
def constructLLMOk : ServiceConstructor := fun _ _ _ => some llmOk

/-- Mixed environment: a live openai key alongside an empty google key (and
nothing else set). -/
def envMixed : Env := fun v =>
  if v == "OPENAI_API_KEY" then some "sk-live-key"
  else if v == "GOOGLE_API_KEY" then some "" else none

/-- Witness for the amended C9: in the mixed environment the google provider
(empty credential) is excluded even though a live openai key is present; with
no credentials at all the registry is empty; and google client construction
is absent for the empty environment. -/
theorem credential_not_configured_handling_witness :
    lookupProvider (initialize_providers envMixed constructLLMOk) "google" = none ∧
    initialize_providers envNone constructLLMOk = [] ∧
    create_llm envNone constructClientOk {} "google" "gemini-1.5-flash" = none :=
  ⟨credential_not_configured_handling.1 envMixed constructLLMOk "google"
      (by decide) (by decide),
   credential_not_configured_handling.2.1 envNone constructLLMOk
      (fun _ _ hk => Option.noConfusion hk),
   credential_not_configured_handling.2.2.1 envNone constructClientOk {}
      "gemini-1.5-flash" (Or.inl rfl)⟩

end Prodscope
